import Mathlib

/-!
Verification of the Aurum spending core against its specification.

The Go sources are shallowly embedded:
* `decimal.Decimal` amounts become `Rat` (exact decimal arithmetic;
  the program only adds, subtracts and compares amounts).
* `time.Time` values become `Int` timestamps; calls to `time.Now()`
  inside the Go code become explicit `now` parameters.
* Randomly generated UUIDs (`NewCardAccountID`, `NewAuthorizationID`,
  `NewEventID`) become explicit string parameters.
* Go methods that mutate their receiver in place and return `error`
  become functions returning the (possibly updated) value paired with
  `Option DomainErr`; every error branch in the Go code returns before
  any field assignment, so on an error the returned value is the
  unchanged receiver.
-/

namespace Aurum

/-- Distinguished error values of the spending core.  The first two model
the inline `errors.New` values produced by `Money.Add` / `Money.Subtract`
(`internal/common/types/money.go`); the rest are the domain sentinels of
`internal/spending/domain/errors.go`. -/
inductive DomainErr where
  | moneyAddCurrencyMismatch
  | moneySubCurrencyMismatch
  | currencyMismatch
  | spendingLimitExceeded
  | alreadyCaptured
  | invalidStateTransition
  | exceedsAuthorizedAmount
  | emptyTenantID
  | corruptData
  | optimisticLock
  | cardAccountNotFound
  | authorizationNotFound
deriving Repr, DecidableEq

/-- Money value (`internal/common/types/money.go`): a decimal amount with a
currency code. -/
structure Money where
  amount : Rat
  currency : String
deriving Repr, DecidableEq

/-- Go `types.Zero(currency)`. -/
def Money.zeroOf (currency : String) : Money := ⟨0, currency⟩

/-- Go `Money.Add`: adds two Money values, error if currencies differ. -/
def Money.Add (m other : Money) : Except DomainErr Money :=
  if m.currency ≠ other.currency then .error .moneyAddCurrencyMismatch
  else .ok ⟨m.amount + other.amount, m.currency⟩

/-- Go `Money.Subtract`: subtracts `other` from `m`, error if currencies
differ.  Note: the result may be negative; the Go code performs no sign
check here. -/
def Money.Subtract (m other : Money) : Except DomainErr Money :=
  if m.currency ≠ other.currency then .error .moneySubCurrencyMismatch
  else .ok ⟨m.amount - other.amount, m.currency⟩

/-- Go `Money.GreaterThan`: true only when the currencies match and the
amount is strictly greater. -/
def Money.GreaterThan (m other : Money) : Bool :=
  m.currency = other.currency ∧ other.amount < m.amount

/-- Go `Money.IsPositive`. -/
def Money.IsPositive (m : Money) : Bool := 0 < m.amount

/-- Go `Money.IsNegative`. -/
def Money.IsNegative (m : Money) : Bool := m.amount < 0

/-- CardAccount aggregate (`src/unnamed/part_014`).  Identifiers are kept
as strings. -/
structure CardAccount where
  id : String
  tenantID : String
  spendingLimit : Money
  rollingSpend : Money
  version : Int
  createdAt : Int
  updatedAt : Int
deriving Repr, DecidableEq

/-- Go `NewCardAccount(tenantID, spendingLimit, now)`: rejects an empty
tenant id; the generated UUID is passed in as `id`. -/
def NewCardAccount (id tenantID : String) (spendingLimit : Money) (now : Int) :
    Except DomainErr CardAccount :=
  if tenantID = "" then .error .emptyTenantID
  else .ok
    { id := id
      tenantID := tenantID
      spendingLimit := spendingLimit
      rollingSpend := Money.zeroOf spendingLimit.currency
      version := 1
      createdAt := now
      updatedAt := now }

/-- Go `CardAccount.AuthorizeAmount(amount, now)` (`part_014` lines 66-84):
currency check, add to rolling spend, limit check, then commit the new
rolling spend with a version bump and timestamp update. -/
def CardAccount.AuthorizeAmount (c : CardAccount) (amount : Money) (now : Int) :
    CardAccount × Option DomainErr :=
  if amount.currency ≠ c.spendingLimit.currency then (c, some .currencyMismatch)
  else
    match c.rollingSpend.Add amount with
    | .error e => (c, some e)
    | .ok newSpend =>
      if newSpend.GreaterThan c.spendingLimit then (c, some .spendingLimitExceeded)
      else ({ c with rollingSpend := newSpend, version := c.version + 1, updatedAt := now }, none)

/-- Go `CardAccount.ReleaseAmount(amount, now)` (`part_014` lines 88-102):
currency check, subtract from rolling spend, commit.  The Go code has no
underflow check — `Money.Subtract` only validates currencies. -/
def CardAccount.ReleaseAmount (c : CardAccount) (amount : Money) (now : Int) :
    CardAccount × Option DomainErr :=
  if amount.currency ≠ c.rollingSpend.currency then (c, some .currencyMismatch)
  else
    match c.rollingSpend.Subtract amount with
    | .error e => (c, some e)
    | .ok newSpend =>
      ({ c with rollingSpend := newSpend, version := c.version + 1, updatedAt := now }, none)

/-- Authorization states (`src/unnamed/part_016`): in Go this is a string
type with four named constants. -/
abbrev AuthorizationState := String

def AuthorizationStateAuthorized : AuthorizationState := "authorized"
def AuthorizationStateCaptured : AuthorizationState := "captured"
def AuthorizationStateReversed : AuthorizationState := "reversed"
def AuthorizationStateExpired : AuthorizationState := "expired"

/-- Authorization aggregate (`src/unnamed/part_016`). -/
structure Authorization where
  id : String
  tenantID : String
  cardAccountID : String
  authorizedAmount : Money
  capturedAmount : Money
  merchantRef : String
  reference : String
  state : AuthorizationState
  version : Int
  createdAt : Int
  updatedAt : Int
deriving Repr, DecidableEq

/-- Go `NewAuthorization`: creates an authorization in the Authorized state;
rejects an empty tenant id.  The generated UUID and `time.Now()` are
passed in as `id` and `now`. -/
def NewAuthorization (id tenantID cardAccountID : String) (authorizedAmount : Money)
    (merchantRef reference : String) (now : Int) : Except DomainErr Authorization :=
  if tenantID = "" then .error .emptyTenantID
  else .ok
    { id := id
      tenantID := tenantID
      cardAccountID := cardAccountID
      authorizedAmount := authorizedAmount
      capturedAmount := Money.zeroOf authorizedAmount.currency
      merchantRef := merchantRef
      reference := reference
      state := AuthorizationStateAuthorized
      version := 1
      createdAt := now
      updatedAt := now }

/-- Go `Authorization.Capture(amount)` (`part_016` lines 118-137): the checks
run in order — AlreadyCaptured, InvalidTransition, CurrencyMismatch,
ExceedsAuthorized — then the capture is recorded and the state moves to
Captured with a version bump. -/
def Authorization.Capture (a : Authorization) (amount : Money) (now : Int) :
    Authorization × Option DomainErr :=
  if a.state = AuthorizationStateCaptured then (a, some .alreadyCaptured)
  else if a.state ≠ AuthorizationStateAuthorized then (a, some .invalidStateTransition)
  else if amount.currency ≠ a.authorizedAmount.currency then (a, some .currencyMismatch)
  else if amount.GreaterThan a.authorizedAmount then (a, some .exceedsAuthorizedAmount)
  else
    ({ a with
        capturedAmount := amount
        state := AuthorizationStateCaptured
        version := a.version + 1
        updatedAt := now }, none)

/-- Go `Authorization.Reverse()` (`part_016` lines 140-149): valid only from
Authorized. -/
def Authorization.Reverse (a : Authorization) (now : Int) :
    Authorization × Option DomainErr :=
  if a.state ≠ AuthorizationStateAuthorized then (a, some .invalidStateTransition)
  else
    ({ a with
        state := AuthorizationStateReversed
        version := a.version + 1
        updatedAt := now }, none)

/-- Go `Authorization.Expire()` (`part_016` lines 152-161): valid only from
Authorized. -/
def Authorization.Expire (a : Authorization) (now : Int) :
    Authorization × Option DomainErr :=
  if a.state ≠ AuthorizationStateAuthorized then (a, some .invalidStateTransition)
  else
    ({ a with
        state := AuthorizationStateExpired
        version := a.version + 1
        updatedAt := now }, none)

/-! ### String-keyed maps

Go `map[string]T` values are embedded as association lists with unique
keys maintained by `mapSet` (replace-or-append).  Lookup takes the first
binding, matching map semantics on well-formed lists. -/

/-- Lookup in a string-keyed association list (first binding wins). -/
def mapGet {α : Type} : List (String × α) → String → Option α
  | [], _ => none
  | p :: rest, k => if p.1 = k then some p.2 else mapGet rest k

/-- Insert-or-replace in a string-keyed association list. -/
def mapSet {α : Type} (m : List (String × α)) (k : String) (v : α) : List (String × α) :=
  match m with
  | [] => [(k, v)]
  | p :: rest => if p.1 = k then (k, v) :: rest else p :: mapSet rest k v

/-! ### Application-layer data -/

/-- Response payload of `SpendingService.CreateAuthorization`
(`src/unnamed/part_012`). -/
structure CreateAuthorizationResponse where
  authorizationID : String
  status : String
deriving Repr, DecidableEq

/-- Response payload of `SpendingService.CaptureAuthorization`
(`src/unnamed/part_012`).  The Go code stores the captured amount's
formatted string; we keep the Money value it formats. -/
structure CaptureAuthorizationResponse where
  authorizationID : String
  status : String
  capturedAmount : Money
deriving Repr, DecidableEq

/-- Serialized idempotency response bodies.  In Go the body is JSON
bytes; we model the well-typed payloads plus an opaque case for bytes
that do not decode as the expected shape. -/
inductive ResponseBody where
  | createAuth (r : CreateAuthorizationResponse)
  | captureAuth (r : CaptureAuthorizationResponse)
  | rawBody (s : String)
deriving Repr, DecidableEq

/-- Go `json.Unmarshal` of a stored body into `CreateAuthorizationResponse`. -/
def decodeCreateAuthResponse : ResponseBody → Option CreateAuthorizationResponse
  | .createAuth r => some r
  | _ => none

/-- Go `json.Unmarshal` of a stored body into `CaptureAuthorizationResponse`. -/
def decodeCaptureAuthResponse : ResponseBody → Option CaptureAuthorizationResponse
  | .captureAuth r => some r
  | _ => none

/-- Idempotency entry (`domain.IdempotencyEntry`), keyed by
`(tenant_id, idempotency_key)`. -/
structure IdempotencyEntry where
  tenantID : String
  idempotencyKey : String
  resourceID : String
  statusCode : Int
  responseBody : ResponseBody
  createdAt : Int
deriving Repr, DecidableEq

/-- Key used by the in-memory stores: `tenantID + ":" + key`. -/
def idemKey (tenantID key : String) : String := tenantID ++ ":" ++ key

/-- Key used by the in-memory aggregate repositories:
`tenantID + ":" + id`. -/
def aggKey (tenantID id : String) : String := tenantID ++ ":" ++ id

/-- Outbox entry (`domain.OutboxEntry`).  The JSON event payload is kept
opaque. -/
structure OutboxEntry where
  id : String
  eventType : String
  tenantID : String
  correlationID : String
  payload : String
  occurredAt : Int
  publishedAt : Option Int
deriving Repr, DecidableEq

/-- Go `domain.NewSpendAuthorizedOutboxEntry(auth, correlationID)`
(`internal/spending/domain/events.go`): event id and `time.Now()` are
passed in explicitly; the JSON payload is abstracted to the
authorization id it carries. -/
def NewSpendAuthorizedOutboxEntry (auth : Authorization) (correlationID : String)
    (eventId : String) (occurredAt : Int) : OutboxEntry :=
  { id := eventId
    eventType := "spend.authorized"
    tenantID := auth.tenantID
    correlationID := correlationID
    payload := auth.id
    occurredAt := occurredAt
    publishedAt := none }

/-- Go `domain.NewSpendCapturedOutboxEntry(auth, correlationID)`. -/
def NewSpendCapturedOutboxEntry (auth : Authorization) (correlationID : String)
    (eventId : String) (occurredAt : Int) : OutboxEntry :=
  { id := eventId
    eventType := "spend.captured"
    tenantID := auth.tenantID
    correlationID := correlationID
    payload := auth.id
    occurredAt := occurredAt
    publishedAt := none }

/-! ### In-memory data store
(`internal/spending/infrastructure/memory/datastore.go`) -/

/-- The in-memory `DataStore` state: four Go maps and an outbox slice. -/
structure DataStore where
  authorizations : List (String × Authorization)
  cardAccounts : List (String × CardAccount)
  idempotencyKeys : List (String × IdempotencyEntry)
  outboxEntries : List OutboxEntry
deriving Repr, DecidableEq

/-- Staged writes of a `transactionalDataStore`. -/
structure TxStaged where
  stagedAuthorizations : List (String × Authorization)
  stagedCardAccounts : List (String × CardAccount)
  stagedIdempotency : List (String × IdempotencyEntry)
  stagedOutbox : List OutboxEntry
deriving Repr, DecidableEq

/-- The empty transaction snapshot created at the start of `Atomic`. -/
def TxStaged.empty : TxStaged := ⟨[], [], [], []⟩

/-- Commit step of `DataStore.Atomic`: apply the staged changes to the
parent maps and append the staged outbox entries. -/
def DataStore.commitTx (ds : DataStore) (tx : TxStaged) : DataStore :=
  { authorizations := tx.stagedAuthorizations.foldl (fun m p => mapSet m p.1 p.2) ds.authorizations
    cardAccounts := tx.stagedCardAccounts.foldl (fun m p => mapSet m p.1 p.2) ds.cardAccounts
    idempotencyKeys := tx.stagedIdempotency.foldl (fun m p => mapSet m p.1 p.2) ds.idempotencyKeys
    outboxEntries := ds.outboxEntries ++ tx.stagedOutbox }

/-- Go `txAuthorizationRepository.FindByID`: staged first, then parent. -/
def txFindAuthorization (ds : DataStore) (tx : TxStaged) (tenantID id : String) :
    Option Authorization :=
  match mapGet tx.stagedAuthorizations (aggKey tenantID id) with
  | some a => some a
  | none => mapGet ds.authorizations (aggKey tenantID id)

/-- Go `txAuthorizationRepository.Save`: stage the authorization. -/
def txSaveAuthorization (tx : TxStaged) (auth : Authorization) : TxStaged :=
  { tx with stagedAuthorizations :=
      mapSet tx.stagedAuthorizations (aggKey auth.tenantID auth.id) auth }

/-- Go `txCardAccountRepository.FindByTenantID`: scan staged accounts first,
then the parent map, returning the first account of the tenant. -/
def txFindCardAccountByTenant (ds : DataStore) (tx : TxStaged) (tenantID : String) :
    Option CardAccount :=
  match tx.stagedCardAccounts.find? (fun p => p.2.tenantID = tenantID) with
  | some p => some p.2
  | none =>
    match ds.cardAccounts.find? (fun p => p.2.tenantID = tenantID) with
    | some p => some p.2
    | none => none

/-- Go `txCardAccountRepository.FindByID`: staged first, then parent. -/
def txFindCardAccountByID (ds : DataStore) (tx : TxStaged) (tenantID id : String) :
    Option CardAccount :=
  match mapGet tx.stagedCardAccounts (aggKey tenantID id) with
  | some c => some c
  | none => mapGet ds.cardAccounts (aggKey tenantID id)

/-- Go `txCardAccountRepository.Save`: stage the account. -/
def txSaveCardAccount (tx : TxStaged) (account : CardAccount) : TxStaged :=
  { tx with stagedCardAccounts :=
      mapSet tx.stagedCardAccounts (aggKey account.tenantID account.id) account }

/-- Go `txIdempotencyStore.Get`: staged first, then parent;
absence is not an error. -/
def txIdempotencyGet (ds : DataStore) (tx : TxStaged) (tenantID key : String) :
    Option IdempotencyEntry :=
  match mapGet tx.stagedIdempotency (idemKey tenantID key) with
  | some e => some e
  | none => mapGet ds.idempotencyKeys (idemKey tenantID key)

/-- Go `txIdempotencyStore.SetIfAbsent`: return the existing entry when
present, otherwise stage the new entry. -/
def txSetIfAbsent (ds : DataStore) (tx : TxStaged) (entry : IdempotencyEntry) :
    Bool × IdempotencyEntry × TxStaged :=
  match txIdempotencyGet ds tx entry.tenantID entry.idempotencyKey with
  | some existing => (false, existing, tx)
  | none =>
    (true, entry,
      { tx with stagedIdempotency :=
          mapSet tx.stagedIdempotency (idemKey entry.tenantID entry.idempotencyKey) entry })

/-- Go `txOutboxRepository.Append`: stage the outbox entry. -/
def txAppendOutbox (tx : TxStaged) (entry : OutboxEntry) : TxStaged :=
  { tx with stagedOutbox := tx.stagedOutbox ++ [entry] }

/-- Non-transactional `IdempotencyStore.Get`
(`memory/datastore.go`): `(nil, nil)` when absent. -/
def DataStore.idempotencyGet (ds : DataStore) (tenantID key : String) :
    Option IdempotencyEntry :=
  mapGet ds.idempotencyKeys (idemKey tenantID key)

/-- Non-transactional `IdempotencyStore.SetIfAbsent`
(`memory/datastore.go` lines 356-365): store the entry only when the key
is not already present; when present, return the existing entry and
leave the store unchanged. -/
def DataStore.SetIfAbsent (ds : DataStore) (entry : IdempotencyEntry) :
    Bool × IdempotencyEntry × DataStore :=
  match mapGet ds.idempotencyKeys (idemKey entry.tenantID entry.idempotencyKey) with
  | some existing => (false, existing, ds)
  | none =>
    (true, entry,
      { ds with idempotencyKeys :=
          mapSet ds.idempotencyKeys (idemKey entry.tenantID entry.idempotencyKey) entry })

/-- Running a list of `SetIfAbsent` calls in sequence, collecting each
call's `(inserted, returned entry)` observation. -/
def DataStore.runSetIfAbsent (ds : DataStore) :
    List IdempotencyEntry → List (Bool × IdempotencyEntry) × DataStore
  | [] => ([], ds)
  | e :: es =>
    let r := ds.SetIfAbsent e
    let rest := DataStore.runSetIfAbsent r.2.2 es
    ((r.1, r.2.1) :: rest.1, rest.2)

/-! ### Application service (`src/unnamed/part_012`) -/

/-- Errors crossing the service layer: domain sentinels plus the internal
idempotency-conflict sentinel (`idempotencyConflictError`) and a JSON
unmarshal failure. -/
inductive ServiceErr where
  | domain (e : DomainErr)
  | idempotencyConflict (existing : IdempotencyEntry)
  | unmarshalFailure
deriving Repr, DecidableEq

/-- Go `storeIdempotency` (`part_012` lines 58-84): marshal the response,
`SetIfAbsent` it, and return the `idempotencyConflictError` sentinel when
a concurrent request's entry is already present. -/
def storeIdempotency (ds : DataStore) (tx : TxStaged)
    (tenantID idempotencyKey resourceID : String) (statusCode : Int)
    (body : ResponseBody) (now : Int) : TxStaged × Option ServiceErr :=
  let r := txSetIfAbsent ds tx
    { tenantID := tenantID
      idempotencyKey := idempotencyKey
      resourceID := resourceID
      statusCode := statusCode
      responseBody := body
      createdAt := now }
  if r.1 then (r.2.2, none) else (r.2.2, some (.idempotencyConflict r.2.1))

/-- Go `DataStore.Atomic` (`memory/datastore.go` lines 69-100) together with
the service's result variable: the callback runs against a fresh staged
snapshot; an error discards the staged writes and propagates, success
commits them. -/
def DataStore.AtomicR {α : Type} (ds : DataStore)
    (fn : DataStore → TxStaged → TxStaged × Except ServiceErr α) :
    DataStore × Except ServiceErr α :=
  match fn ds TxStaged.empty with
  | (_, .error e) => (ds, .error e)
  | (tx, .ok a) => (ds.commitTx tx, .ok a)

/-- Go `application.CreateAuthorizationRequest`. -/
structure CreateAuthorizationRequest where
  tenantID : String
  idempotencyKey : String
  amount : Money
  merchantRef : String
  reference : String
  correlationID : String
deriving Repr, DecidableEq

/-- Body of the `Atomic` callback of `SpendingService.CreateAuthorization`
(`part_012`): load the tenant's card account, authorize the amount,
create the authorization, save both, append the outbox event, then
atomically store the idempotency entry. -/
def createAuthorizationTx (ds : DataStore) (req : CreateAuthorizationRequest)
    (authId eventId : String) (now occurredAt : Int) (tx : TxStaged) :
    TxStaged × Except ServiceErr CreateAuthorizationResponse :=
  match txFindCardAccountByTenant ds tx req.tenantID with
  | none => (tx, .error (.domain .cardAccountNotFound))
  | some cardAccount =>
    let ar := cardAccount.AuthorizeAmount req.amount now
    match ar.2 with
    | some e => (tx, .error (.domain e))
    | none =>
      match NewAuthorization authId req.tenantID ar.1.id req.amount
          req.merchantRef req.reference now with
      | .error e => (tx, .error (.domain e))
      | .ok auth =>
        let tx1 := txSaveCardAccount tx ar.1
        let tx2 := txSaveAuthorization tx1 auth
        let tx3 := txAppendOutbox tx2
          (NewSpendAuthorizedOutboxEntry auth req.correlationID eventId occurredAt)
        let result : CreateAuthorizationResponse := ⟨auth.id, auth.state⟩
        match storeIdempotency ds tx3 req.tenantID req.idempotencyKey auth.id 201
            (.createAuth result) now with
        | (tx4, none) => (tx4, .ok result)
        | (tx4, some e) => (tx4, .error e)

/-- The transactional phase of `CreateAuthorization` together with
`handleIdempotencyConflict`: on the conflict sentinel the transaction has
rolled back and the pre-existing entry's response body is decoded and
returned instead. -/
def createAuthorizationAtomicPhase (ds : DataStore) (req : CreateAuthorizationRequest)
    (authId eventId : String) (now occurredAt : Int) :
    DataStore × Except ServiceErr CreateAuthorizationResponse :=
  let r := ds.AtomicR (fun d tx => createAuthorizationTx d req authId eventId now occurredAt tx)
  match r.2 with
  | .error (.idempotencyConflict existing) =>
    match decodeCreateAuthResponse existing.responseBody with
    | some resp => (r.1, .ok resp)
    | none => (r.1, .error .unmarshalFailure)
  | other => (r.1, other)

/-- Go `checkIdempotency` fast path for the create flow (`part_012` lines
27-40): read outside the transaction and decode the stored body. -/
def checkIdempotencyCreate (ds : DataStore) (tenantID key : String) :
    Except ServiceErr (Option CreateAuthorizationResponse) :=
  match ds.idempotencyGet tenantID key with
  | none => .ok none
  | some entry =>
    match decodeCreateAuthResponse entry.responseBody with
    | some resp => .ok (some resp)
    | none => .error .unmarshalFailure

/-- Go `SpendingService.CreateAuthorization`: fast-path idempotency read,
then the atomic phase. -/
def CreateAuthorization (ds : DataStore) (req : CreateAuthorizationRequest)
    (authId eventId : String) (now occurredAt : Int) :
    DataStore × Except ServiceErr CreateAuthorizationResponse :=
  match checkIdempotencyCreate ds req.tenantID req.idempotencyKey with
  | .error e => (ds, .error e)
  | .ok (some cached) => (ds, .ok cached)
  | .ok none => createAuthorizationAtomicPhase ds req authId eventId now occurredAt

/-- Go `application.CaptureAuthorizationRequest`. -/
structure CaptureServiceRequest where
  tenantID : String
  authorizationID : String
  idempotencyKey : String
  amount : Money
  correlationID : String
deriving Repr, DecidableEq

/-- Body of the `Atomic` callback of `SpendingService.CaptureAuthorization`
(`part_012`): load the authorization, capture it, save it, append the
outbox event, then atomically store the idempotency entry. -/
def captureAuthorizationTx (ds : DataStore) (req : CaptureServiceRequest)
    (eventId : String) (now occurredAt : Int) (tx : TxStaged) :
    TxStaged × Except ServiceErr CaptureAuthorizationResponse :=
  match txFindAuthorization ds tx req.tenantID req.authorizationID with
  | none => (tx, .error (.domain .authorizationNotFound))
  | some auth =>
    let cr := auth.Capture req.amount now
    match cr.2 with
    | some e => (tx, .error (.domain e))
    | none =>
      let tx1 := txSaveAuthorization tx cr.1
      let tx2 := txAppendOutbox tx1
        (NewSpendCapturedOutboxEntry cr.1 req.correlationID eventId occurredAt)
      let result : CaptureAuthorizationResponse := ⟨cr.1.id, cr.1.state, cr.1.capturedAmount⟩
      match storeIdempotency ds tx2 req.tenantID req.idempotencyKey cr.1.id 200
          (.captureAuth result) now with
      | (tx3, none) => (tx3, .ok result)
      | (tx3, some e) => (tx3, .error e)

/-- Go `checkIdempotency` fast path for the capture flow. -/
def checkIdempotencyCapture (ds : DataStore) (tenantID key : String) :
    Except ServiceErr (Option CaptureAuthorizationResponse) :=
  match ds.idempotencyGet tenantID key with
  | none => .ok none
  | some entry =>
    match decodeCaptureAuthResponse entry.responseBody with
    | some resp => .ok (some resp)
    | none => .error .unmarshalFailure

/-- Go `SpendingService.CaptureAuthorization`: fast-path idempotency read,
atomic phase, and `handleIdempotencyConflict` replay. -/
def CaptureAuthorization (ds : DataStore) (req : CaptureServiceRequest)
    (eventId : String) (now occurredAt : Int) :
    DataStore × Except ServiceErr CaptureAuthorizationResponse :=
  match checkIdempotencyCapture ds req.tenantID req.idempotencyKey with
  | .error e => (ds, .error e)
  | .ok (some cached) => (ds, .ok cached)
  | .ok none =>
    let r := ds.AtomicR (fun d tx => captureAuthorizationTx d req eventId now occurredAt tx)
    match r.2 with
    | .error (.idempotencyConflict existing) =>
      match decodeCaptureAuthResponse existing.responseBody with
      | some resp => (r.1, .ok resp)
      | none => (r.1, .error .unmarshalFailure)
    | other => (r.1, other)

/-! ### HTTP capture handler (`internal/spending/api/handler.go`) -/

/-- Hexadecimal digit test used by the UUID-shape check. -/
def isHexDigit (c : Char) : Bool :=
  c.isDigit ∨ ('a' ≤ c ∧ c ≤ 'f') ∨ ('A' ≤ c ∧ c ≤ 'F')

/-- Character check for position `i` of a canonical UUID string. -/
def uuidCharOK (p : Nat × Char) : Bool :=
  if p.1 = 8 ∨ p.1 = 13 ∨ p.1 = 18 ∨ p.1 = 23 then p.2 = '-' else isHexDigit p.2

/-- Go `domain.ParseAuthorizationID` via `uuid.Parse`, restricted to the
canonical 36-character form `xxxxxxxx-xxxx-xxxx-xxxx-xxxxxxxxxxxx`. -/
def ParseAuthorizationID (s : String) : Option String :=
  if s.length = 36 ∧ s.toList.enum.all uuidCharOK then some s else none

/-- Decoded JSON body of `POST /authorizations/{id}/capture`
(`api.CaptureAuthorizationRequest`). -/
structure CaptureHTTPRequest where
  tenantID : String
  idempotencyKey : String
  amount : Money
deriving Repr, DecidableEq

/-- HTTP result written by the capture handler: a success body with
status, or an error status with its stable message. -/
inductive CaptureHTTPResult where
  | ok (status : Int) (body : CaptureAuthorizationResponse)
  | errorResp (status : Int) (message : String)
deriving Repr, DecidableEq

/-- Go `Handler.handleDomainError` (`handler.go` lines 203-225): maps domain
errors to HTTP statuses and stable messages; anything unrecognized gets
500. -/
def handleDomainError : ServiceErr → Int × String
  | .domain .authorizationNotFound => (404, "authorization not found")
  | .domain .cardAccountNotFound => (404, "card account not found")
  | .domain .alreadyCaptured => (409, "authorization already captured")
  | .domain .invalidStateTransition => (409, "invalid state transition")
  | .domain .exceedsAuthorizedAmount => (400, "capture amount exceeds authorized amount")
  | .domain .spendingLimitExceeded => (422, "spending limit exceeded")
  | .domain .currencyMismatch => (400, "currency mismatch")
  | .domain .optimisticLock => (409, "concurrent modification detected, please retry")
  | _ => (500, "internal server error")

/-- Go `Handler.CaptureAuthorization` (`handler.go` lines 121-163): after
JSON decoding, the handler validates only that `tenant_id` and
`idempotency_key` are non-empty and that the path id parses as a UUID —
the amount is forwarded to the service unchecked.  The resolved
correlation id, generated event id and clock readings are explicit
parameters. -/
def HandlerCaptureAuthorization (ds : DataStore) (pathID : String)
    (req : CaptureHTTPRequest) (corrID eventId : String) (now occurredAt : Int) :
    DataStore × CaptureHTTPResult :=
  if req.tenantID = "" then (ds, .errorResp 400 "tenant_id is required")
  else if req.idempotencyKey = "" then (ds, .errorResp 400 "idempotency_key is required")
  else
    match ParseAuthorizationID pathID with
    | none => (ds, .errorResp 400 "invalid authorization_id")
    | some authID =>
      let r := CaptureAuthorization ds
        { tenantID := req.tenantID
          authorizationID := authID
          idempotencyKey := req.idempotencyKey
          amount := req.amount
          correlationID := corrID } eventId now occurredAt
      match r.2 with
      | .ok resp => (r.1, .ok 200 resp)
      | .error e => (r.1, .errorResp (handleDomainError e).1 (handleDomainError e).2)

/-! ### Postgres atomic coordinator (`src/unnamed/part_005`)

The transactional repositories stage writes exactly as the in-memory
transaction does; the database commit applies them and may itself fail.
The callback's three possible endings (normal return with nil, normal
return with an error, panic) are the three constructors of
`FnOutcome`. -/

/-- Outcome of running the `Atomic` callback. -/
inductive FnOutcome where
  | ok (tx : TxStaged)
  | fail (tx : TxStaged) (e : ServiceErr)
  | panics (p : String)

/-- Observable outcome of `DataStore.Atomic` (`part_005` lines 71-102). -/
inductive AtomicOutcome where
  | ok
  | err (e : ServiceErr)
  | commitFailed
  | panicked (p : String)
deriving Repr, DecidableEq

/-- Go `DataStore.Atomic` of the Postgres store (`part_005` lines 71-102):
panic → rollback and re-panic; error → rollback and propagate; nil →
commit, surfacing a commit failure (`commitOk = false`) as the result. -/
def AtomicPg (ds : DataStore) (fn : DataStore → TxStaged → FnOutcome) (commitOk : Bool) :
    DataStore × AtomicOutcome :=
  match fn ds TxStaged.empty with
  | .panics p => (ds, .panicked p)
  | .fail _ e => (ds, .err e)
  | .ok tx => if commitOk then (ds.commitTx tx, .ok) else (ds, .commitFailed)

/-! ### Postgres card-account repository
(`internal/spending/infrastructure/postgres/card_account_repository.go`) -/

/-- One row of `spending.card_accounts`, keyed by the primary key `id`. -/
structure CardAccountRow where
  id : String
  tenantID : String
  spendingLimitAmount : Rat
  spendingLimitCurrency : String
  rollingSpendAmount : Rat
  rollingSpendCurrency : String
  version : Int
  createdAt : Int
  updatedAt : Int
deriving Repr, DecidableEq

/-- Column values written for an aggregate by `Save`. -/
def rowOfCardAccount (a : CardAccount) : CardAccountRow :=
  { id := a.id
    tenantID := a.tenantID
    spendingLimitAmount := a.spendingLimit.amount
    spendingLimitCurrency := a.spendingLimit.currency
    rollingSpendAmount := a.rollingSpend.amount
    rollingSpendCurrency := a.rollingSpend.currency
    version := a.version
    createdAt := a.createdAt
    updatedAt := a.updatedAt }

/-- The `spending.card_accounts` table as a map from primary key `id` to
row. -/
abbrev CardAccountTable := List (String × CardAccountRow)

/-- The `DO UPDATE SET` clause of the upsert: only the rolling spend,
version and updated_at columns are assigned from the excluded row. -/
def applyUpsertUpdate (stored incoming : CardAccountRow) : CardAccountRow :=
  { stored with
      rollingSpendAmount := incoming.rollingSpendAmount
      rollingSpendCurrency := incoming.rollingSpendCurrency
      version := incoming.version
      updatedAt := incoming.updatedAt }

/-- The single-statement upsert issued by `Save`:
`INSERT ... ON CONFLICT (id) DO UPDATE SET ... WHERE stored.version =
EXCLUDED.version - 1`.  Returns the new table and the number of affected
rows. -/
def UpsertCardAccount (t : CardAccountTable) (r : CardAccountRow) : CardAccountTable × Nat :=
  match mapGet t r.id with
  | none => (mapSet t r.id r, 1)
  | some stored =>
    if stored.version = r.version - 1 then (mapSet t r.id (applyUpsertUpdate stored r), 1)
    else (t, 0)

/-- Go `CardAccountRepository.Save` (`card_account_repository.go` lines
31-69): run the upsert, then return `ErrOptimisticLock` exactly when the
aggregate's version is greater than 1 and no row was affected. -/
def CardAccountRepositorySave (t : CardAccountTable) (a : CardAccount) :
    CardAccountTable × Option DomainErr :=
  let u := UpsertCardAccount t (rowOfCardAccount a)
  if a.version > 1 ∧ u.2 = 0 then (u.1, some .optimisticLock) else (u.1, none)

/-- Check constraints of `spending.card_accounts`
(`migrations/000002_spending_tables.up.sql` lines 15-17): non-negative
limit, non-negative rolling spend, matching currencies. -/
def cardAccountRowChecksOK (r : CardAccountRow) : Bool :=
  0 ≤ r.spendingLimitAmount ∧ 0 ≤ r.rollingSpendAmount ∧
    r.spendingLimitCurrency = r.rollingSpendCurrency

/-! ## Theorems -/

/-- Account of the cumulative-limit scenario: limit 1000 EUR, nothing
spent yet. -/
def scenarioAccount : CardAccount :=
  { id := "acc-1"
    tenantID := "tenant-1"
    spendingLimit := ⟨1000, "EUR"⟩
    rollingSpend := ⟨0, "EUR"⟩
    version := 1
    createdAt := 0
    updatedAt := 0 }

/-- Money value of 600 EUR. -/
def eur600 : Money := ⟨600, "EUR"⟩

/-- Claim C1: `AuthorizeAmount(amount, now)` fails with CurrencyMismatch
when the amount's currency differs from the spending limit's, fails with
LimitExceeded when `rolling_spend + amount` exceeds the limit (leaving
the account unchanged in both failure cases), and otherwise sets the
rolling spend to the sum, increments the version and sets `updated_at`
to `now`; two successive authorizations of 600 against a limit of 1000
leave the rolling spend at 600 with the second rejected. -/
theorem authorizeAmount_spec (c : CardAccount) (amount : Money) (now : Int)
    (hinv : c.rollingSpend.currency = c.spendingLimit.currency) :
    (amount.currency ≠ c.spendingLimit.currency →
      c.AuthorizeAmount amount now = (c, some .currencyMismatch)) ∧
    (amount.currency = c.spendingLimit.currency →
      c.spendingLimit.amount < c.rollingSpend.amount + amount.amount →
      c.AuthorizeAmount amount now = (c, some .spendingLimitExceeded)) ∧
    (amount.currency = c.spendingLimit.currency →
      c.rollingSpend.amount + amount.amount ≤ c.spendingLimit.amount →
      c.AuthorizeAmount amount now =
        ({ c with
            rollingSpend := ⟨c.rollingSpend.amount + amount.amount, c.rollingSpend.currency⟩
            version := c.version + 1
            updatedAt := now }, none)) ∧
    ((scenarioAccount.AuthorizeAmount eur600 1).2 = none ∧
      (scenarioAccount.AuthorizeAmount eur600 1).1.rollingSpend = ⟨600, "EUR"⟩ ∧
      (scenarioAccount.AuthorizeAmount eur600 1).1.AuthorizeAmount eur600 2 =
        ((scenarioAccount.AuthorizeAmount eur600 1).1, some .spendingLimitExceeded)) := by
  refine ⟨?_, ?_, ?_, ?_⟩
  · intro hne
    simp [CardAccount.AuthorizeAmount, hne]
  · intro heq hlt
    simp only [CardAccount.AuthorizeAmount, Money.Add, Money.GreaterThan, hinv, heq]
    simp [hinv, heq, hlt]
  · intro heq hle
    simp only [CardAccount.AuthorizeAmount, Money.Add, Money.GreaterThan, hinv, heq]
    simp [hinv, heq, not_lt.mpr hle]
  · have h1 : scenarioAccount.AuthorizeAmount eur600 1 =
        ({ scenarioAccount with rollingSpend := ⟨600, "EUR"⟩, version := 2, updatedAt := 1 },
          none) := by
      norm_num [CardAccount.AuthorizeAmount, Money.Add, Money.GreaterThan,
        scenarioAccount, eur600]
    rw [h1]
    refine ⟨rfl, rfl, ?_⟩
    norm_num [CardAccount.AuthorizeAmount, Money.Add, Money.GreaterThan,
      scenarioAccount, eur600]

/-- Witness for C1 at a concrete input: the currency-mismatch branch at
a USD amount against the EUR scenario account. -/
theorem authorizeAmount_spec_witness :
    scenarioAccount.AuthorizeAmount ⟨50, "USD"⟩ 7 =
      (scenarioAccount, some .currencyMismatch) :=
  (authorizeAmount_spec scenarioAccount ⟨50, "USD"⟩ 7 rfl).1 (by decide)

/-- Claim C2 (refuting the underflow clause): `ReleaseAmount` fails with
CurrencyMismatch when the currencies differ, but performs no underflow
check whatsoever — with a matching currency it always subtracts, even
when the result is negative.  Releasing 100 EUR from an account with
rolling spend 0 succeeds and leaves `rolling_spend = -100`, a state the
schema's own `chk_rolling_spend_non_negative` constraint rejects. -/
theorem releaseAmount_no_underflow_check :
    (∀ (c : CardAccount) (amount : Money) (now : Int),
      amount.currency = c.rollingSpend.currency →
      c.ReleaseAmount amount now =
        ({ c with
            rollingSpend := ⟨c.rollingSpend.amount - amount.amount, c.rollingSpend.currency⟩
            version := c.version + 1
            updatedAt := now }, none)) ∧
    (∀ (c : CardAccount) (amount : Money) (now : Int),
      amount.currency ≠ c.rollingSpend.currency →
      c.ReleaseAmount amount now = (c, some .currencyMismatch)) ∧
    ((scenarioAccount.ReleaseAmount ⟨100, "EUR"⟩ 1).2 = none ∧
      (scenarioAccount.ReleaseAmount ⟨100, "EUR"⟩ 1).1.rollingSpend.amount = -100 ∧
      (scenarioAccount.ReleaseAmount ⟨100, "EUR"⟩ 1).1.rollingSpend.IsNegative = true ∧
      cardAccountRowChecksOK
        (rowOfCardAccount (scenarioAccount.ReleaseAmount ⟨100, "EUR"⟩ 1).1) = false) := by
  refine ⟨?_, ?_, ?_⟩
  · intro c amount now heq
    simp [CardAccount.ReleaseAmount, Money.Subtract, heq]
  · intro c amount now hne
    simp [CardAccount.ReleaseAmount, hne]
  · have h1 : scenarioAccount.ReleaseAmount ⟨100, "EUR"⟩ 1 =
        ({ scenarioAccount with rollingSpend := ⟨-100, "EUR"⟩, version := 2, updatedAt := 1 },
          none) := by
      norm_num [CardAccount.ReleaseAmount, Money.Subtract, scenarioAccount]
    rw [h1]
    refine ⟨rfl, rfl, by norm_num [Money.IsNegative], ?_⟩
    norm_num [cardAccountRowChecksOK, rowOfCardAccount, scenarioAccount]

/-- Witness for C2 at a concrete input: releasing 1 EUR from the EUR
scenario account subtracts it from the rolling spend. -/
theorem releaseAmount_no_underflow_check_witness :
    scenarioAccount.ReleaseAmount ⟨1, "EUR"⟩ 5 =
      ({ scenarioAccount with
          rollingSpend := ⟨scenarioAccount.rollingSpend.amount - 1, "EUR"⟩
          version := scenarioAccount.version + 1
          updatedAt := 5 }, none) :=
  releaseAmount_no_underflow_check.1 scenarioAccount ⟨1, "EUR"⟩ 5 rfl

/-- A live authorization over 100 EUR used in concrete scenarios. -/
def scenarioAuth : Authorization :=
  { id := "auth-1"
    tenantID := "tenant-1"
    cardAccountID := "acc-1"
    authorizedAmount := ⟨100, "EUR"⟩
    capturedAmount := ⟨0, "EUR"⟩
    merchantRef := "m-1"
    reference := "r-1"
    state := AuthorizationStateAuthorized
    version := 1
    createdAt := 0
    updatedAt := 0 }

/-- Claim C3: `Capture(amount)` returns AlreadyCaptured exactly from the
Captured state, InvalidTransition from Reversed or Expired,
CurrencyMismatch on a currency difference, ExceedsAuthorized when the
amount exceeds the authorized amount, and otherwise records the captured
amount (partial capture allowed), moves to Captured and bumps the
version; a second capture is rejected regardless of amount. -/
theorem capture_spec (a : Authorization) (amount : Money) (now : Int) :
    (a.state = AuthorizationStateCaptured →
      a.Capture amount now = (a, some .alreadyCaptured)) ∧
    (a.state = AuthorizationStateReversed ∨ a.state = AuthorizationStateExpired →
      a.Capture amount now = (a, some .invalidStateTransition)) ∧
    (a.state = AuthorizationStateAuthorized →
      amount.currency ≠ a.authorizedAmount.currency →
      a.Capture amount now = (a, some .currencyMismatch)) ∧
    (a.state = AuthorizationStateAuthorized →
      amount.currency = a.authorizedAmount.currency →
      a.authorizedAmount.amount < amount.amount →
      a.Capture amount now = (a, some .exceedsAuthorizedAmount)) ∧
    (a.state = AuthorizationStateAuthorized →
      amount.currency = a.authorizedAmount.currency →
      amount.amount ≤ a.authorizedAmount.amount →
      a.Capture amount now =
        ({ a with
            capturedAmount := amount
            state := AuthorizationStateCaptured
            version := a.version + 1
            updatedAt := now }, none)) ∧
    (∀ (b : Authorization) (amount2 : Money) (now2 : Int),
      a.Capture amount now = (b, none) →
      b.Capture amount2 now2 = (b, some .alreadyCaptured)) := by
  have hcap : ∀ (b : Authorization), b.state = AuthorizationStateCaptured →
      ∀ (m : Money) (t : Int), b.Capture m t = (b, some .alreadyCaptured) := by
    intro b hb m t
    simp [Authorization.Capture, hb]
  refine ⟨fun h => hcap a h amount now, ?_, ?_, ?_, ?_, ?_⟩
  · rintro (h | h) <;>
      simp [Authorization.Capture, h, AuthorizationStateReversed,
        AuthorizationStateExpired, AuthorizationStateCaptured, AuthorizationStateAuthorized]
  · intro hs hne
    simp [Authorization.Capture, hs, hne, AuthorizationStateAuthorized,
      AuthorizationStateCaptured]
  · intro hs heq hlt
    simp [Authorization.Capture, hs, heq, hlt, Money.GreaterThan,
      AuthorizationStateAuthorized, AuthorizationStateCaptured]
  · intro hs heq hle
    simp [Authorization.Capture, hs, heq, not_lt.mpr hle, Money.GreaterThan,
      AuthorizationStateAuthorized, AuthorizationStateCaptured]
  · intro b amount2 now2 hok
    have hbstate : b.state = AuthorizationStateCaptured := by
      by_cases h1 : a.state = AuthorizationStateCaptured
      · simp [Authorization.Capture, h1] at hok
      · by_cases h2 : a.state = AuthorizationStateAuthorized
        · by_cases h3 : amount.currency = a.authorizedAmount.currency
          · by_cases h4 : amount.GreaterThan a.authorizedAmount
            · simp [Authorization.Capture, h1, h2, h3, h4, AuthorizationStateAuthorized,
                AuthorizationStateCaptured] at hok
            · simp [Authorization.Capture, h1, h2, h3, h4, AuthorizationStateAuthorized,
                AuthorizationStateCaptured] at hok
              rw [← hok]
              simp [AuthorizationStateCaptured]
          · simp [Authorization.Capture, h1, h2, h3, AuthorizationStateAuthorized,
              AuthorizationStateCaptured] at hok
        · simp [Authorization.Capture, h1, h2] at hok
    exact hcap b hbstate amount2 now2

/-- Witness for C3 at a concrete input: a partial capture of 60 EUR on a
100 EUR authorization succeeds and records 60 EUR. -/
theorem capture_spec_witness :
    scenarioAuth.Capture ⟨60, "EUR"⟩ 3 =
      ({ scenarioAuth with
          capturedAmount := ⟨60, "EUR"⟩
          state := AuthorizationStateCaptured
          version := scenarioAuth.version + 1
          updatedAt := 3 }, none) :=
  (capture_spec scenarioAuth ⟨60, "EUR"⟩ 3).2.2.2.2.1 rfl rfl (by norm_num [scenarioAuth])

/-- Claim C4: in any terminal state (Captured, Reversed, Expired) every
mutating operation — Capture, Reverse, Expire — returns an error with the
authorization unchanged, and a mutation can only succeed from the
Authorized state. -/
theorem terminal_states_absorbing (a : Authorization) (amount : Money) (now : Int)
    (hterm : a.state = AuthorizationStateCaptured ∨ a.state = AuthorizationStateReversed ∨
      a.state = AuthorizationStateExpired) :
    (∃ e, a.Capture amount now = (a, some e)) ∧
    (∃ e, a.Reverse now = (a, some e)) ∧
    (∃ e, a.Expire now = (a, some e)) ∧
    (∀ (b c : Authorization) (m : Money) (t : Int),
      (b.Capture m t = (c, none) ∨ b.Reverse t = (c, none) ∨ b.Expire t = (c, none)) →
      b.state = AuthorizationStateAuthorized) := by
  have hne : a.state ≠ AuthorizationStateAuthorized := by
    rcases hterm with h | h | h <;>
      simp [h, AuthorizationStateAuthorized, AuthorizationStateCaptured,
        AuthorizationStateReversed, AuthorizationStateExpired]
  refine ⟨?_, ?_, ?_, ?_⟩
  · by_cases hc : a.state = AuthorizationStateCaptured
    · exact ⟨.alreadyCaptured, by simp [Authorization.Capture, hc]⟩
    · exact ⟨.invalidStateTransition, by simp [Authorization.Capture, hc, hne]⟩
  · exact ⟨.invalidStateTransition, by simp [Authorization.Reverse, hne]⟩
  · exact ⟨.invalidStateTransition, by simp [Authorization.Expire, hne]⟩
  · intro b c m t hsucc
    by_contra hb
    rcases hsucc with h | h | h
    · by_cases hc : b.state = AuthorizationStateCaptured
      · simp [Authorization.Capture, hc] at h
      · simp [Authorization.Capture, hc, hb] at h
    · simp [Authorization.Reverse, hb] at h
    · simp [Authorization.Expire, hb] at h

/-- Witness for C4 at a concrete input: the captured scenario
authorization accepts no further mutation. -/
theorem terminal_states_absorbing_witness :
    (∃ e, ({ scenarioAuth with state := AuthorizationStateCaptured } : Authorization).Capture
      ⟨10, "EUR"⟩ 4 = ({ scenarioAuth with state := AuthorizationStateCaptured }, some e)) ∧
    (∃ e, ({ scenarioAuth with state := AuthorizationStateCaptured } : Authorization).Reverse 4 =
      ({ scenarioAuth with state := AuthorizationStateCaptured }, some e)) := by
  have h := terminal_states_absorbing
    { scenarioAuth with state := AuthorizationStateCaptured } ⟨10, "EUR"⟩ 4 (Or.inl rfl)
  exact ⟨h.1, h.2.1⟩

/-- Looking up the key just written returns the written value. -/
theorem mapGet_mapSet_self {α : Type} (m : List (String × α)) (k : String) (v : α) :
    mapGet (mapSet m k v) k = some v := by
  induction m with
  | nil => simp [mapGet, mapSet]
  | cons p rest ih =>
    by_cases h : p.1 = k
    · simp [mapSet, h, mapGet]
    · simp [mapSet, h, mapGet, ih]

/-- When the key is already bound, every later `SetIfAbsent` call in a
run over same-key entries observes `(false, v)` and the store never
changes. -/
theorem runSetIfAbsent_present (ds : DataStore) (v : IdempotencyEntry) (k : String)
    (es : List IdempotencyEntry) (hk : mapGet ds.idempotencyKeys k = some v)
    (hall : ∀ e ∈ es, idemKey e.tenantID e.idempotencyKey = k) :
    ds.runSetIfAbsent es = (es.map (fun _ => (false, v)), ds) := by
  induction es with
  | nil => simp [DataStore.runSetIfAbsent]
  | cons e es ih =>
    have hke : idemKey e.tenantID e.idempotencyKey = k := hall e (by simp)
    have hstep : ds.SetIfAbsent e = (false, v, ds) := by
      simp [DataStore.SetIfAbsent, hke, hk]
    simp [DataStore.runSetIfAbsent, hstep, ih (fun e' he' => hall e' (by simp [he']))]

/-- Claim C5: `SetIfAbsent(e)` inserts and reports `inserted = true` when
no entry exists for the key, and otherwise returns the previously stored
entry with `inserted = false` leaving the store unchanged; in any
sequence of same-key calls exactly the first reports `inserted = true`
and all later calls return the first caller's entry. -/
theorem setIfAbsent_spec (ds : DataStore) (entry : IdempotencyEntry) :
    (mapGet ds.idempotencyKeys (idemKey entry.tenantID entry.idempotencyKey) = none →
      ds.SetIfAbsent entry = (true, entry,
        { ds with idempotencyKeys :=
            mapSet ds.idempotencyKeys (idemKey entry.tenantID entry.idempotencyKey) entry })) ∧
    (∀ existing,
      mapGet ds.idempotencyKeys (idemKey entry.tenantID entry.idempotencyKey) = some existing →
      ds.SetIfAbsent entry = (false, existing, ds)) ∧
    (∀ es : List IdempotencyEntry,
      mapGet ds.idempotencyKeys (idemKey entry.tenantID entry.idempotencyKey) = none →
      (∀ e ∈ es, e.tenantID = entry.tenantID ∧ e.idempotencyKey = entry.idempotencyKey) →
      ds.runSetIfAbsent (entry :: es) =
        ((true, entry) :: es.map (fun _ => (false, entry)),
          { ds with idempotencyKeys :=
              mapSet ds.idempotencyKeys (idemKey entry.tenantID entry.idempotencyKey) entry })) := by
  refine ⟨?_, ?_, ?_⟩
  · intro habs
    simp [DataStore.SetIfAbsent, habs]
  · intro existing hex
    simp [DataStore.SetIfAbsent, hex]
  · intro es habs hall
    have hstep : ds.SetIfAbsent entry = (true, entry,
        { ds with idempotencyKeys :=
            mapSet ds.idempotencyKeys (idemKey entry.tenantID entry.idempotencyKey) entry }) := by
      simp [DataStore.SetIfAbsent, habs]
    have htail := runSetIfAbsent_present
      { ds with idempotencyKeys :=
          mapSet ds.idempotencyKeys (idemKey entry.tenantID entry.idempotencyKey) entry }
      entry (idemKey entry.tenantID entry.idempotencyKey) es
      (mapGet_mapSet_self ds.idempotencyKeys _ entry)
      (fun e he => by rw [(hall e he).1, (hall e he).2])
    simp [DataStore.runSetIfAbsent, hstep, htail]

/-- Empty in-memory data store. -/
def emptyDataStore : DataStore := ⟨[], [], [], []⟩

/-- A concrete idempotency entry of the create flow. -/
def sampleEntry : IdempotencyEntry :=
  { tenantID := "tenant-1"
    idempotencyKey := "key-1"
    resourceID := "auth-1"
    statusCode := 201
    responseBody := .createAuth ⟨"auth-1", "authorized"⟩
    createdAt := 0 }

/-- Witness for C5 at a concrete input: two same-key calls on the empty
store — the first inserts, the second returns the first entry. -/
theorem setIfAbsent_spec_witness :
    emptyDataStore.runSetIfAbsent [sampleEntry, { sampleEntry with resourceID := "auth-2" }] =
      ([(true, sampleEntry), (false, sampleEntry)],
        { emptyDataStore with idempotencyKeys := mapSet emptyDataStore.idempotencyKeys (idemKey sampleEntry.tenantID sampleEntry.idempotencyKey) sampleEntry }) :=
  (setIfAbsent_spec emptyDataStore sampleEntry).2.2
    [{ sampleEntry with resourceID := "auth-2" }] rfl (by simp [sampleEntry])

/-- Claim C7: repository `Save` inserts when the aggregate's version is
1 and the id is new; when version > 1 it updates the stored row exactly
when the stored version equals `version - 1`, and returns OptimisticLock
when the version predicate rejects the update (zero rows affected).  The
whole insert-or-update is the single upsert statement
`UpsertCardAccount`. -/
theorem cardAccountSave_spec (t : CardAccountTable) (a : CardAccount) :
    (a.version = 1 → mapGet t a.id = none →
      CardAccountRepositorySave t a = (mapSet t a.id (rowOfCardAccount a), none)) ∧
    (∀ stored, 1 < a.version → mapGet t a.id = some stored →
      (stored.version = a.version - 1 →
        CardAccountRepositorySave t a =
          (mapSet t a.id (applyUpsertUpdate stored (rowOfCardAccount a)), none)) ∧
      (stored.version ≠ a.version - 1 →
        CardAccountRepositorySave t a = (t, some .optimisticLock))) := by
  refine ⟨?_, ?_⟩
  · intro hv habs
    simp [CardAccountRepositorySave, UpsertCardAccount, habs, rowOfCardAccount, hv]
  · intro stored hv hex
    refine ⟨?_, ?_⟩
    · intro hmatch
      simp [CardAccountRepositorySave, UpsertCardAccount, hex, rowOfCardAccount, hmatch]
    · intro hmiss
      simp [CardAccountRepositorySave, UpsertCardAccount, hex, rowOfCardAccount, hmiss, hv]

/-- Witness for C7 at a concrete input: inserting the version-1 scenario
account into the empty table stores its row. -/
theorem cardAccountSave_spec_witness :
    CardAccountRepositorySave [] scenarioAccount =
      (mapSet [] scenarioAccount.id (rowOfCardAccount scenarioAccount), none) :=
  (cardAccountSave_spec [] scenarioAccount).1 rfl rfl

/-- Claim C8: the atomic coordinator commits the staged writes exactly
when the callback returns nil (a commit failure is surfaced as the
result with nothing applied); a callback error rolls back, leaves the
parent store untouched and propagates; a callback panic rolls back and
re-raises, never committing. -/
theorem atomic_spec (ds : DataStore) (fn : DataStore → TxStaged → FnOutcome)
    (commitOk : Bool) :
    (∀ tx, fn ds TxStaged.empty = .ok tx →
      (commitOk = true → AtomicPg ds fn commitOk = (ds.commitTx tx, .ok)) ∧
      (commitOk = false → AtomicPg ds fn commitOk = (ds, .commitFailed))) ∧
    (∀ tx e, fn ds TxStaged.empty = .fail tx e →
      AtomicPg ds fn commitOk = (ds, .err e)) ∧
    (∀ p, fn ds TxStaged.empty = .panics p →
      AtomicPg ds fn commitOk = (ds, .panicked p)) := by
  refine ⟨?_, ?_, ?_⟩
  · intro tx h
    refine ⟨fun hc => ?_, fun hc => ?_⟩ <;> simp [AtomicPg, h, hc]
  · intro tx e h
    simp [AtomicPg, h]
  · intro p h
    simp [AtomicPg, h]

/-- Witness for C8 at a concrete input: an erroring callback leaves the
empty store untouched and propagates its error. -/
theorem atomic_spec_witness :
    AtomicPg emptyDataStore (fun _ tx => .fail tx (.domain .optimisticLock)) true =
      (emptyDataStore, .err (.domain .optimisticLock)) :=
  (atomic_spec emptyDataStore (fun _ tx => .fail tx (.domain .optimisticLock)) true).2.1
    TxStaged.empty (.domain .optimisticLock) rfl

/-- Claim C10: saving a version-1 aggregate when a row with the same id
already exists (at any stored version other than 0) affects zero rows —
the upsert's version predicate fails — yet `Save` reports success: the
OptimisticLock error is gated on `version > 1`, so the write is silently
lost. -/
theorem cardAccountSave_version1_lost_write (t : CardAccountTable) (a : CardAccount)
    (stored : CardAccountRow) (hex : mapGet t a.id = some stored)
    (hsv : stored.version ≠ 0) (hv : a.version = 1) :
    CardAccountRepositorySave t a = (t, none) := by
  simp [CardAccountRepositorySave, UpsertCardAccount, hex, rowOfCardAccount, hsv, hv]

/-- Witness for C10 at a concrete input: a table already holding the
scenario account's id at version 3 absorbs a version-1 save without an
error and without a change. -/
theorem cardAccountSave_version1_lost_write_witness :
    CardAccountRepositorySave
      [(scenarioAccount.id, { rowOfCardAccount scenarioAccount with version := 3 })]
      scenarioAccount =
      ([(scenarioAccount.id, { rowOfCardAccount scenarioAccount with version := 3 })], none) :=
  cardAccountSave_version1_lost_write _ scenarioAccount
    { rowOfCardAccount scenarioAccount with version := 3 }
    (by simp [mapGet]) (by simp) rfl

/-- The fast-path read can only fail with an unmarshal error. -/
theorem checkIdempotencyCreate_error_shape (ds : DataStore) (t k : String) (e : ServiceErr)
    (h : checkIdempotencyCreate ds t k = .error e) : e = .unmarshalFailure := by
  unfold checkIdempotencyCreate at h
  split at h
  · cases h
  · split at h
    · cases h
    · simpa [eq_comm] using h

/-- The conflict-handling wrapper of the create flow never lets the
idempotency-conflict sentinel escape. -/
theorem createAuthorizationAtomicPhase_no_conflict (ds : DataStore)
    (req : CreateAuthorizationRequest) (authId eventId : String) (now occurredAt : Int)
    (e : IdempotencyEntry) :
    (createAuthorizationAtomicPhase ds req authId eventId now occurredAt).2 ≠
      Except.error (ServiceErr.idempotencyConflict e) := by
  unfold createAuthorizationAtomicPhase
  rcases hr : (DataStore.AtomicR ds
      fun d tx => createAuthorizationTx d req authId eventId now occurredAt tx).2 with e0 | v
  · rcases e0 with ed | ex | _
    · simp [hr]
    · rcases hD : decodeCreateAuthResponse ex.responseBody with _ | resp <;> simp [hr, hD]
    · simp [hr]
  · simp [hr]

/-- Claim C6: when the in-transaction `SetIfAbsent` of
`CreateAuthorization` finds a pre-existing entry, the callback returns
the IdempotencyConflict sentinel, the whole transaction rolls back
(the data store is unchanged: no card-account update, no authorization,
no outbox entry), and the caller instead decodes the existing entry's
stored response and returns it; the sentinel itself is never the
call's result. -/
theorem createAuthorization_conflict_replay (ds : DataStore)
    (req : CreateAuthorizationRequest) (authId eventId : String) (now occurredAt : Int)
    (account : CardAccount) (existing : IdempotencyEntry)
    (hacct : txFindCardAccountByTenant ds TxStaged.empty req.tenantID = some account)
    (hauth : (account.AuthorizeAmount req.amount now).2 = none)
    (hten : req.tenantID ≠ "")
    (hex : mapGet ds.idempotencyKeys (idemKey req.tenantID req.idempotencyKey) = some existing) :
    createAuthorizationAtomicPhase ds req authId eventId now occurredAt =
      (ds, match decodeCreateAuthResponse existing.responseBody with
        | some resp => Except.ok resp
        | none => Except.error ServiceErr.unmarshalFailure) ∧
    (∀ (ds' : DataStore) (req' : CreateAuthorizationRequest) (authId' eventId' : String)
      (now' occurredAt' : Int) (e : IdempotencyEntry),
      (CreateAuthorization ds' req' authId' eventId' now' occurredAt').2 ≠
        Except.error (ServiceErr.idempotencyConflict e)) := by
  constructor
  · have htx : (createAuthorizationTx ds req authId eventId now occurredAt TxStaged.empty).2 =
        Except.error (ServiceErr.idempotencyConflict existing) := by
      unfold createAuthorizationTx
      rw [hacct]
      simp [hauth, NewAuthorization, hten, storeIdempotency, txSetIfAbsent,
        txIdempotencyGet, txAppendOutbox, txSaveAuthorization, txSaveCardAccount,
        TxStaged.empty, mapGet, hex]
    unfold createAuthorizationAtomicPhase DataStore.AtomicR
    rcases hfn : createAuthorizationTx ds req authId eventId now occurredAt TxStaged.empty
      with ⟨txr, res⟩
    have hres : res = Except.error (ServiceErr.idempotencyConflict existing) := by
      rw [hfn] at htx; exact htx
    subst hres
    simp only [hfn]
    rcases hD : decodeCreateAuthResponse existing.responseBody with _ | resp <;> simp [hD]
  · intro ds' req' authId' eventId' now' occurredAt' e
    unfold CreateAuthorization
    rcases hfp : checkIdempotencyCreate ds' req'.tenantID req'.idempotencyKey with e0 | co
    · have he0 := checkIdempotencyCreate_error_shape ds' _ _ e0 hfp
      subst he0
      simp
    · rcases co with _ | cached
      · exact createAuthorizationAtomicPhase_no_conflict ds' req' authId' eventId' now'
          occurredAt' e
      · simp

/-- Store holding the scenario account and a pre-existing idempotency
entry for tenant-1 / key-1 (a concurrent request's committed result). -/
def conflictStore : DataStore :=
  { emptyDataStore with
      cardAccounts := [(aggKey "tenant-1" "acc-1", scenarioAccount)]
      idempotencyKeys := [(idemKey "tenant-1" "key-1", sampleEntry)] }

/-- A create request racing against the stored entry. -/
def conflictReq : CreateAuthorizationRequest :=
  { tenantID := "tenant-1"
    idempotencyKey := "key-1"
    amount := eur600
    merchantRef := "m-2"
    reference := "r-2"
    correlationID := "corr-2" }

/-- Witness for C6 at a concrete input: the racing create leaves the
store untouched and returns the stored entry's response. -/
theorem createAuthorization_conflict_replay_witness :
    createAuthorizationAtomicPhase conflictStore conflictReq "auth-9" "evt-9" 1 1 =
      (conflictStore, Except.ok ⟨"auth-1", "authorized"⟩) := by
  have h := (createAuthorization_conflict_replay conflictStore conflictReq "auth-9" "evt-9" 1 1
    scenarioAccount sampleEntry
    (by simp [txFindCardAccountByTenant, TxStaged.empty, conflictStore, emptyDataStore,
      scenarioAccount, conflictReq])
    (by norm_num [CardAccount.AuthorizeAmount, Money.Add, Money.GreaterThan,
      scenarioAccount, eur600, conflictReq])
    (by decide)
    (by simp [conflictStore, emptyDataStore, mapGet, idemKey, conflictReq])).1
  simpa [sampleEntry, decodeCreateAuthResponse] using h

/-- A well-formed authorization id accepted by the HTTP path parser. -/
def uuid1 : String := "01234567-89ab-cdef-0123-456789abcdef"

/-- The scenario authorization stored under its UUID id. -/
def scenarioAuthU : Authorization := { scenarioAuth with id := uuid1 }

/-- Store holding only the scenario authorization. -/
def captureStore : DataStore :=
  { emptyDataStore with authorizations := [(aggKey "tenant-1" uuid1, scenarioAuthU)] }

/-- A capture request over a negative amount. -/
def negCaptureHTTPReq : CaptureHTTPRequest :=
  { tenantID := "tenant-1"
    idempotencyKey := "key-9"
    amount := ⟨-50, "EUR"⟩ }

/-- Claim C9: `Capture` has no positivity check — from the Authorized
state a zero or negative amount in the authorized currency always
succeeds, recording that value as the captured amount; and the HTTP
capture handler forwards the amount unvalidated, so a negative
`captured_amount` is reachable through the public interface. -/
theorem capture_no_positivity_check :
    (∀ (a : Authorization) (amount : Money) (now : Int),
      a.state = AuthorizationStateAuthorized →
      amount.currency = a.authorizedAmount.currency →
      amount.amount ≤ 0 → 0 < a.authorizedAmount.amount →
      a.Capture amount now =
        ({ a with
            capturedAmount := amount
            state := AuthorizationStateCaptured
            version := a.version + 1
            updatedAt := now }, none)) ∧
    ((HandlerCaptureAuthorization captureStore uuid1 negCaptureHTTPReq "corr-3" "evt-3" 5 5).2 =
        .ok 200 ⟨uuid1, AuthorizationStateCaptured, ⟨-50, "EUR"⟩⟩ ∧
      mapGet (HandlerCaptureAuthorization captureStore uuid1 negCaptureHTTPReq
          "corr-3" "evt-3" 5 5).1.authorizations (aggKey "tenant-1" uuid1) =
        some { scenarioAuthU with
            capturedAmount := ⟨-50, "EUR"⟩
            state := AuthorizationStateCaptured
            version := 2
            updatedAt := 5 } ∧
      Money.IsNegative ⟨-50, "EUR"⟩ = true) := by
  constructor
  · intro a amount now hs hc hle hpos
    have hng : ¬(a.authorizedAmount.amount < amount.amount) :=
      not_lt.mpr (le_of_lt (lt_of_le_of_lt hle hpos))
    simp [Authorization.Capture, hs, hc, hng, Money.GreaterThan,
      AuthorizationStateAuthorized, AuthorizationStateCaptured]
  · exact ⟨rfl, rfl, rfl⟩

/-- Witness for C9 at a concrete input: capturing −50 EUR on the live
100 EUR authorization succeeds and records the negative amount. -/
theorem capture_no_positivity_check_witness :
    scenarioAuth.Capture ⟨-50, "EUR"⟩ 5 =
      ({ scenarioAuth with
          capturedAmount := ⟨-50, "EUR"⟩
          state := AuthorizationStateCaptured
          version := scenarioAuth.version + 1
          updatedAt := 5 }, none) :=
  capture_no_positivity_check.1 scenarioAuth ⟨-50, "EUR"⟩ 5 rfl rfl
    (by decide) (by decide)

end Aurum
